import Mathlib

/-!
Shallow embedding of the Crackjatt/reset-server Express routes.

Each JavaScript handler in the repository is a pure function of the
inbound request, the environment configuration and the responses of the
upstream services (the Supabase REST store, the Supabase admin API, the
mail transport, Cloudinary).  Each definition below mirrors one route of
the source and returns the HTTP response together with the ordered trace
of outbound calls issued during the request.
-/

namespace ResetServer

/-- JavaScript values as exchanged by the routes: JSON values plus the
distinguished `undefined`.  Objects are association lists; lookup takes
the first binding (the routes never build objects with duplicate keys). -/
inductive JsVal where
  | null
  | undefined
  | bool (b : Bool)
  | num (n : Int)
  | str (s : String)
  | arr (xs : List JsVal)
  | obj (fields : List (String × JsVal))

instance : Inhabited JsVal := ⟨.undefined⟩

/-- JavaScript truthiness. -/
def jsTruthy : JsVal → Bool
  | .null => false
  | .undefined => false
  | .bool b => b
  | .num n => n != 0
  | .str s => s != ""
  | .arr _ => true
  | .obj _ => true

/-- JavaScript `a || b`. -/
def jsOr (a b : JsVal) : JsVal := if jsTruthy a then a else b

/-- Strict equality `===`.  The routes only compare values against
primitive literals; comparing two composite values (reference equality
in JavaScript) is modelled as `false`, which no route relies on. -/
def jsStrictEq : JsVal → JsVal → Bool
  | .null, .null => true
  | .undefined, .undefined => true
  | .bool a, .bool b => a == b
  | .num a, .num b => a == b
  | .str a, .str b => a == b
  | _, _ => false

/-- Object property lookup, `undefined` when absent. -/
def getField : List (String × JsVal) → String → JsVal
  | [], _ => .undefined
  | (k, v) :: rest, key => if k = key then v else getField rest key

/-- Property access `v.k` on a value that is not `null`/`undefined`
(access on those throws; the handlers model the throwing spots
explicitly). -/
def memberT : JsVal → String → JsVal
  | .obj fs, k => getField fs k
  | _, _ => .undefined

/-- Optional chaining `v?.k`. -/
def optMember (v : JsVal) (k : String) : JsVal :=
  match v with
  | .null => .undefined
  | .undefined => .undefined
  | w => memberT w k

/-- JavaScript `.toString()` / string interpolation of a value.  The
join of a non-empty array's elements is not modelled (no route path
stringifies an array; request fields are scalars). -/
def jsToString : JsVal → String
  | .null => "null"
  | .undefined => "undefined"
  | .bool true => "true"
  | .bool false => "false"
  | .num n => toString n
  | .str s => s
  | .arr _ => ""
  | .obj _ => "[object Object]"

/-- JavaScript `.length` as a value (`undefined` on values without one). -/
def jsLength : JsVal → JsVal
  | .arr xs => .num xs.length
  | .str s => .num s.length
  | .obj fs => getField fs "length"
  | _ => .undefined

/-- JavaScript `v[0]`. -/
def jsIndex0 : JsVal → JsVal
  | .arr (x :: _) => x
  | .arr [] => .undefined
  | .str s => if s = "" then .undefined else .str (s.take 1)
  | .obj fs => getField fs "0"
  | _ => .undefined

/-- `JSON.stringify` of a boolean (the only value the routes stringify). -/
def jsonStringifyBool (b : Bool) : String := cond b "true" "false"

/-- JSON whitespace (ECMA-262 `JSONText`): space, tab, line feed,
carriage return. -/
def jsonWs (c : Char) : Bool := c == ' ' || c == '\t' || c == '\n' || c == '\r'

/-- Value of a hexadecimal digit. -/
def hexVal (c : Char) : Option Nat :=
  if '0' ≤ c ∧ c ≤ '9' then some (c.toNat - '0'.toNat)
  else if 'a' ≤ c ∧ c ≤ 'f' then some (c.toNat - 'a'.toNat + 10)
  else if 'A' ≤ c ∧ c ≤ 'F' then some (c.toNat - 'A'.toNat + 10)
  else none

/-- Single-character JSON escape sequences (`\u` is handled separately). -/
def escChar : Char → Option Char
  | '"' => some '"'
  | '\\' => some '\\'
  | '/' => some '/'
  | 'b' => some (Char.ofNat 8)
  | 'f' => some (Char.ofNat 12)
  | 'n' => some '\n'
  | 'r' => some '\r'
  | 't' => some '\t'
  | _ => none

/-- Scan the interior of a JSON string literal up to the closing quote,
decoding escape sequences.  A `\u` escape naming a surrogate half is
rejected (surrogate-pair combination is not modelled; no decoded string
a route inspects can contain an astral character). -/
def scanStr : List Char → List Char → Option (String × List Char)
  | [], _ => none
  | '"' :: rest, acc => some (String.mk acc.reverse, rest)
  | '\\' :: 'u' :: h1 :: h2 :: h3 :: h4 :: rest, acc =>
    match hexVal h1, hexVal h2, hexVal h3, hexVal h4 with
    | some a, some b, some c, some d =>
      let code := ((a * 16 + b) * 16 + c) * 16 + d
      if code < 0xd800 ∨ 0xdfff < code then scanStr rest (Char.ofNat code :: acc) else none
    | _, _, _, _ => none
  | '\\' :: e :: rest, acc =>
    match escChar e with
    | some c => scanStr rest (c :: acc)
    | none => none
  | ['\\'], _ => none
  | c :: rest, acc => scanStr rest (c :: acc)

/-- Split a leading run of decimal digits from the input. -/
def scanDigits : List Char → List Char → List Char × List Char
  | [], acc => (acc.reverse, [])
  | c :: rest, acc => if c.isDigit then scanDigits rest (c :: acc) else (acc.reverse, c :: rest)

def digitsToNat : List Char → Nat → Nat
  | [], acc => acc
  | c :: rest, acc => digitsToNat rest (acc * 10 + (c.toNat - '0'.toNat))

/-- Parser jobs: a single value, the items of an array after `[`, or the
fields of an object after `{`. -/
inductive PJob where
  | val
  | items
  | fields

/-- Parser outcomes, tagged by job. -/
inductive POut where
  | val (v : JsVal)
  | items (xs : List JsVal)
  | fields (fs : List (String × JsVal))

/-- Fuel-bounded recursive-descent JSON parser: values, arrays, objects,
strings with escape decoding, integer literals, whitespace skipped at
every grammar position as in ECMA-262. -/
def parseStep : Nat → PJob → List Char → Option (POut × List Char)
  | 0, _, _ => none
  | Nat.succ n, .val, cs =>
    match cs.dropWhile jsonWs with
    | 't' :: 'r' :: 'u' :: 'e' :: rest => some (.val (.bool true), rest)
    | 'f' :: 'a' :: 'l' :: 's' :: 'e' :: rest => some (.val (.bool false), rest)
    | 'n' :: 'u' :: 'l' :: 'l' :: rest => some (.val .null, rest)
    | '"' :: rest =>
      match scanStr rest [] with
      | some (s, rest2) => some (.val (.str s), rest2)
      | none => none
    | '[' :: rest =>
      match rest.dropWhile jsonWs with
      | ']' :: rest2 => some (.val (.arr []), rest2)
      | rest2 =>
        match parseStep n .items rest2 with
        | some (.items xs, rest3) => some (.val (.arr xs), rest3)
        | _ => none
    | '{' :: rest =>
      match rest.dropWhile jsonWs with
      | '}' :: rest2 => some (.val (.obj []), rest2)
      | rest2 =>
        match parseStep n .fields rest2 with
        | some (.fields fs, rest3) => some (.val (.obj fs), rest3)
        | _ => none
    | '-' :: c :: rest =>
      if c.isDigit then
        let p := scanDigits (c :: rest) []
        some (.val (.num (-(digitsToNat p.1 0 : Int))), p.2)
      else none
    | c :: rest =>
      if c.isDigit then
        let p := scanDigits (c :: rest) []
        some (.val (.num (digitsToNat p.1 0)), p.2)
      else none
    | [] => none
  | Nat.succ n, .items, cs =>
    match parseStep n .val cs with
    | some (.val v, rest) =>
      match rest.dropWhile jsonWs with
      | ',' :: rest2 =>
        match parseStep n .items rest2 with
        | some (.items xs, rest3) => some (.items (v :: xs), rest3)
        | _ => none
      | ']' :: rest2 => some (.items [v], rest2)
      | _ => none
    | _ => none
  | Nat.succ n, .fields, cs =>
    match cs.dropWhile jsonWs with
    | '"' :: rest =>
      match scanStr rest [] with
      | some (k, rest2) =>
        match rest2.dropWhile jsonWs with
        | ':' :: rest3 =>
          match parseStep n .val rest3 with
          | some (.val v, rest4) =>
            match rest4.dropWhile jsonWs with
            | ',' :: rest5 =>
              match parseStep n .fields rest5 with
              | some (.fields fs, rest6) => some (.fields ((k, v) :: fs), rest6)
              | _ => none
            | '}' :: rest5 => some (.fields [(k, v)], rest5)
            | _ => none
          | _ => none
        | _ => none
      | none => none
    | _ => none

/-- Models the platform `JSON.parse`: whitespace is skipped around every
token and escape sequences are decoded.  Remaining deliberate gaps, each
outcome-equivalent for every route path a claim observes: number
literals with fraction or exponent parts fail here (they decode to
non-integral doubles, which no route inspects — on such bodies every
route computes the same response either way), and surrogate-pair `\u`
escapes are rejected rather than combined.  `none` models a thrown
`SyntaxError`. -/
def jsonParse (t : String) : Option JsVal :=
  match parseStep (2 * t.length + 2) .val t.data with
  | some (.val v, rest) => if rest.dropWhile jsonWs = [] then some v else none
  | _ => none

/-- `try { result = JSON.parse(text) } catch { result = text }`. -/
def parseOrText (t : String) : JsVal :=
  match jsonParse t with
  | some v => v
  | none => .str t

/-- JavaScript `String.prototype.trim`: strip leading and trailing
whitespace. -/
def jsTrim (s : String) : String :=
  ⟨((s.data.dropWhile Char.isWhitespace).reverse.dropWhile Char.isWhitespace).reverse⟩

/-- `process.env[name] ? process.env[name].trim() : undefined`. -/
def safeEnv : Option String → Option String
  | none => none
  | some s => if s = "" then none else some (jsTrim s)

/-- Falsiness of a string-or-undefined value (`!x`). -/
def strOptFalsy : Option String → Bool
  | none => true
  | some s => s == ""

/-- JavaScript `a || b` on strings. -/
def strOr (a b : String) : String := if a = "" then b else a

/-- `Response.ok` of the fetch API. -/
def httpOk (status : Nat) : Bool := decide (200 ≤ status ∧ status < 300)

/-- `(req.body && (req.body.k1 || req.body.k2))?.toString()`. -/
def field2 (bodyOpt : Option JsVal) (k1 k2 : String) : Option String :=
  match bodyOpt with
  | none => none
  | some b =>
    if jsTruthy b then
      match jsOr (memberT b k1) (memberT b k2) with
      | .null => none
      | .undefined => none
      | v => some (jsToString v)
    else none

/-- Environment variables read by `index.js` and `routes/avatar.js`. -/
structure Env where
  supabaseUrl : Option String
  serviceRoleKey : Option String
  emailUser : Option String
  emailPass : Option String

/-- One outbound call issued by a handler, in order of issue. -/
inductive Ev where
  | storeInsert (email code : String)
  | mailVerify
  | mailSend (recipient code : String)
  | verifyRpc (email code : String)
  | adminLookup (email : String)
  | adminUpdate (userId password : String)
  | profileFetch (userId : String)
  | cloudDestroy (publicId : String)
  | profilePatch (userId url publicId : String)
deriving DecidableEq

/-- Events that touch the reset-code store. -/
def isStoreEv : Ev → Bool
  | .storeInsert _ _ => true
  | _ => false

/-- `Math.floor(100000 + r * 900000)` where `r` is the value drawn from
the random source. -/
def genCode (r : ℚ) : ℤ := ⌊(100000 : ℚ) + r * 900000⌋

/-- Responses of `POST /send-code` (`index.js`). -/
inductive SCResp where
  | badRequest
  | misconfigSupabase
  | storeFailed (detail : String)
  | misconfigEmail
  | emailAuthFailed (detail : String)
  | sendFailed (detail : String)
  | ok
deriving DecidableEq

def SCResp.status : SCResp → Nat
  | .badRequest => 400
  | .ok => 200
  | _ => 500

/-- `POST /send-code` of `index.js`: validate, generate a code, insert it
into the store, then verify the mail transport and send the mail. -/
def sendCode (env : Env) (bodyOpt : Option JsVal) (r : ℚ)
    (insertStatus : Nat) (insertBody : String)
    (mailVerifyErr sendErr : Option String) : SCResp × List Ev :=
  let emailOpt := field2 bodyOpt "email" "user_email"
  if strOptFalsy emailOpt then (.badRequest, [])
  else
    let email := emailOpt.getD ""
    let code := toString (genCode r)
    if strOptFalsy (safeEnv env.supabaseUrl) || strOptFalsy (safeEnv env.serviceRoleKey) then
      (.misconfigSupabase, [])
    else
      let tr1 := [Ev.storeInsert email code]
      if !httpOk insertStatus then (.storeFailed insertBody, tr1)
      else if strOptFalsy (safeEnv env.emailUser) || strOptFalsy (safeEnv env.emailPass) then
        (.misconfigEmail, tr1)
      else
        let tr2 := tr1 ++ [Ev.mailVerify]
        match mailVerifyErr with
        | some m => (.emailAuthFailed m, tr2)
        | none =>
          let tr3 := tr2 ++ [Ev.mailSend email code]
          match sendErr with
          | some m => (.sendFailed m, tr3)
          | none => (.ok, tr3)

/-- Responses of `POST /verify-code` (`index.js`). -/
inductive VCResp where
  | badRequest
  | misconfig
  | rpcFailed (detail : String)
  | ok (valid : Bool)
deriving DecidableEq

def VCResp.status : VCResp → Nat
  | .badRequest => 400
  | .ok _ => 200
  | _ => 500

/-- `POST /verify-code` of `index.js`: validate, call the verification
RPC, normalize its body into `valid`. -/
def verifyCode (env : Env) (bodyOpt : Option JsVal)
    (rpcStatus : Nat) (rpcText : String) : VCResp × List Ev :=
  let emailOpt := field2 bodyOpt "email" "user_email"
  let codeOpt := field2 bodyOpt "code" "user_code"
  if strOptFalsy emailOpt || strOptFalsy codeOpt then (.badRequest, [])
  else
    let email := emailOpt.getD ""
    let code := codeOpt.getD ""
    if strOptFalsy (safeEnv env.supabaseUrl) || strOptFalsy (safeEnv env.serviceRoleKey) then
      (.misconfig, [])
    else
      let tr := [Ev.verifyRpc email code]
      if !httpOk rpcStatus then (.rpcFailed rpcText, tr)
      else
        let result := parseOrText rpcText
        let valid := jsStrictEq result (.bool true) || jsStrictEq result (.str "true")
          || jsStrictEq result (.str (jsonStringifyBool true))
        (.ok valid, tr)

/-- The `verified` computation of `POST /reset-password` (`index.js`
lines 183–189). -/
def rpVerified (t : String) : Bool :=
  match jsonParse t with
  | some v => jsStrictEq v (.bool true) || jsStrictEq v (.str "true")
  | none => t == "true"

/-- `Array.isArray(p) ? p : (p.users || p.data || null)` (`index.js`
line 213). -/
def usersArray (parsed : JsVal) : JsVal :=
  match parsed with
  | .arr _ => parsed
  | p => jsOr (jsOr (memberT p "users") (memberT p "data")) .null

/-- Responses of `POST /reset-password` (`index.js`). -/
inductive RPResp where
  | badRequest
  | misconfig
  | invalidCode (detail : String)
  | parseUsersFailed (detail : String)
  | serverError (detail : String)
  | notFound (email : String)
  | updateFailed (status : Nat) (detail : String)
  | ok
deriving DecidableEq

def RPResp.status : RPResp → Nat
  | .badRequest => 400
  | .invalidCode _ => 400
  | .notFound _ => 404
  | .ok => 200
  | _ => 500

/-- `POST /reset-password` of `index.js`: validate, call the verification
RPC inline, look the user up via the admin API (note: `index.js` performs
no `ok` check on the lookup response), then overwrite the password.
Property access on `null`/`undefined` throws and is converted to a 500
by the handler's outer catch, modelled by the `serverError` arms. -/
def resetPassword (env : Env) (bodyOpt : Option JsVal)
    (verifyStatus : Nat) (verifyText : String)
    (userStatus : Nat) (userText : String)
    (updateStatus : Nat) (updateText : String) : RPResp × List Ev :=
  let emailOpt := field2 bodyOpt "email" "user_email"
  let pwOpt := field2 bodyOpt "new_password" "password"
  let codeOpt := field2 bodyOpt "code" "user_code"
  if strOptFalsy emailOpt || strOptFalsy pwOpt || strOptFalsy codeOpt then (.badRequest, [])
  else
    let email := emailOpt.getD ""
    let pw := pwOpt.getD ""
    let code := codeOpt.getD ""
    if strOptFalsy (safeEnv env.supabaseUrl) || strOptFalsy (safeEnv env.serviceRoleKey) then
      (.misconfig, [])
    else
      let tr1 := [Ev.verifyRpc email code]
      if !httpOk verifyStatus || !rpVerified verifyText then (.invalidCode verifyText, tr1)
      else
        let tr2 := tr1 ++ [Ev.adminLookup email]
        match jsonParse userText with
        | none => (.parseUsersFailed userText, tr2)
        | some parsed =>
          match parsed with
          | .null => (.serverError "TypeError", tr2)
          | _ =>
            let ua := usersArray parsed
            if !jsTruthy ua || jsStrictEq (jsLength ua) (.num 0) then (.notFound email, tr2)
            else
              match jsIndex0 ua with
              | .null => (.serverError "TypeError", tr2)
              | .undefined => (.serverError "TypeError", tr2)
              | user =>
                let uid := jsToString (memberT user "id")
                let tr3 := tr2 ++ [Ev.adminUpdate uid pw]
                if !httpOk updateStatus then (.updateFailed updateStatus updateText, tr3)
                else (.ok, tr3)

/-- Responses of `POST /avatar/update` (`routes/avatar.js`). -/
inductive AVResp where
  | misconfig
  | unauthorized
  | badRequest
  | serverError (detail : String)
  | fetchFailed (detail : String)
  | updateFailed (detail : String)
  | ok (updatedText : String)
deriving DecidableEq

def AVResp.status : AVResp → Nat
  | .unauthorized => 403
  | .badRequest => 400
  | .ok _ => 200
  | _ => 500

/-- `req.body || {}`. -/
def bodyOrEmpty (bodyOpt : Option JsVal) : JsVal :=
  match bodyOpt with
  | none => .obj []
  | some v => if jsTruthy v then v else .obj []

/-- `(body.user_id || body.userId || body.id)?.toString()`
(`routes/avatar.js` line 46). -/
def avatarUserId (bodyOpt : Option JsVal) : Option String :=
  let b := bodyOrEmpty bodyOpt
  match jsOr (jsOr (memberT b "user_id") (memberT b "userId")) (memberT b "id") with
  | .null => none
  | .undefined => none
  | v => some (jsToString v)

/-- `body.new_public_id || body.newPublicId || body.public_id ||
body.avatar_public_id` (`routes/avatar.js` line 47). -/
def avatarNewPublicId (bodyOpt : Option JsVal) : JsVal :=
  let b := bodyOrEmpty bodyOpt
  jsOr (jsOr (jsOr (memberT b "new_public_id") (memberT b "newPublicId"))
    (memberT b "public_id")) (memberT b "avatar_public_id")

/-- `body.new_url || body.newUrl || body.avatar_url`
(`routes/avatar.js` line 48). -/
def avatarNewUrl (bodyOpt : Option JsVal) : JsVal :=
  let b := bodyOrEmpty bodyOpt
  jsOr (jsOr (memberT b "new_url") (memberT b "newUrl")) (memberT b "avatar_url")

/-- The prior `avatar_public_id` discovered from the fetched profile:
`JSON.parse` with catch `[]`, first element or `null`, then
`existing?.avatar_public_id || null` (`routes/avatar.js` lines 69–75). -/
def avatarOldPublicId (profileText : String) : JsVal :=
  let parsedProfile := (jsonParse profileText).getD (.arr [])
  let existing := match parsedProfile with | .arr (x :: _) => x | _ => .null
  jsOr (optMember existing "avatar_public_id") .null

/-- `POST /avatar/update` of `routes/avatar.js`: authorize against the
service key, validate fields, fetch the profile, conditionally destroy
the old Cloudinary asset (its failure is caught and ignored), then patch
the profile row.  A missing `SUPABASE_URL` makes `.replace` throw, which
the outer catch turns into a 500. -/
def avatarUpdate (env : Env)
    (apikeyHdr xApikeyHdr authHdr : Option String)
    (bodyOpt : Option JsVal)
    (profileStatus : Nat) (profileText : String)
    (destroyErr : Option String)
    (updateStatus : Nat) (updateText : String) : AVResp × List Ev :=
  let headerKey := strOr (apikeyHdr.getD "") (strOr (xApikeyHdr.getD "") (authHdr.getD ""))
  let keyOpt := safeEnv env.serviceRoleKey
  if strOptFalsy keyOpt then (.misconfig, [])
  else
    let key := keyOpt.getD ""
    let providedKey :=
      if headerKey.data.take 7 = "Bearer ".data then jsTrim ⟨headerKey.data.drop 7⟩
      else headerKey
    if providedKey = "" || providedKey ≠ key then (.unauthorized, [])
    else
      let userIdOpt := avatarUserId bodyOpt
      let newPublicId := avatarNewPublicId bodyOpt
      let newUrl := avatarNewUrl bodyOpt
      if strOptFalsy userIdOpt || !jsTruthy newPublicId || !jsTruthy newUrl then (.badRequest, [])
      else
        let userId := userIdOpt.getD ""
        match safeEnv env.supabaseUrl with
        | none => (.serverError "TypeError", [])
        | some _ =>
          let tr1 := [Ev.profileFetch userId]
          if !httpOk profileStatus then (.fetchFailed profileText, tr1)
          else
            let oldPublicId := avatarOldPublicId profileText
            let tr2 := if jsTruthy oldPublicId && !jsStrictEq oldPublicId newPublicId then
                tr1 ++ [Ev.cloudDestroy (jsToString oldPublicId)]
              else tr1
            let tr3 := tr2 ++ [Ev.profilePatch userId (jsToString newUrl) (jsToString newPublicId)]
            if !httpOk updateStatus then (.updateFailed updateText, tr3)
            else (.ok updateText, tr3)

/-- Responses of `POST /delete-image` (`cloudinary-delete-route.js`). -/
inductive DIResp where
  | notConfigured
  | forbidden
  | badRequest
  | destroyFailed (message : String)
  | ok
deriving DecidableEq

def DIResp.status : DIResp → Nat
  | .forbidden => 403
  | .badRequest => 400
  | .ok => 200
  | _ => 500

/-- `req.get("x-delete-token") || body.token || ""`
(`cloudinary-delete-route.js` line 35). -/
def diToken (headerToken : Option String) (bodyOpt : Option JsVal) : JsVal :=
  jsOr (match headerToken with | some s => .str s | none => .undefined)
    (jsOr (memberT (bodyOrEmpty bodyOpt) "token") (.str ""))

/-- `body.public_id || req.query.public_id`
(`cloudinary-delete-route.js` line 44). -/
def diPublicId (bodyOpt : Option JsVal) (queryPublicId : Option String) : JsVal :=
  jsOr (memberT (bodyOrEmpty bodyOpt) "public_id")
    (match queryPublicId with | some s => .str s | none => .undefined)

/-- `POST /delete-image` of `cloudinary-delete-route.js`: require a
configured `DELETE_TOKEN`, a matching caller token (header or body), and
a `public_id` (body or query) before calling the Cloudinary destroy. -/
def deleteImage (deleteTokenEnv : Option String)
    (headerToken : Option String) (bodyOpt : Option JsVal) (queryPublicId : Option String)
    (destroyErr : Option String) : DIResp × List Ev :=
  let DELETE_TOKEN := deleteTokenEnv.getD ""
  let token := diToken headerToken bodyOpt
  if DELETE_TOKEN = "" then (.notConfigured, [])
  else if !jsTruthy token || !jsStrictEq token (.str DELETE_TOKEN) then (.forbidden, [])
  else
    let publicId := diPublicId bodyOpt queryPublicId
    if !jsTruthy publicId then (.badRequest, [])
    else
      match destroyErr with
      | some m => (.destroyFailed m, [Ev.cloudDestroy (jsToString publicId)])
      | none => (.ok, [Ev.cloudDestroy (jsToString publicId)])

/-! ## Facts about the response normalization -/

theorem jsStrictEq_boolTrue_iff (v : JsVal) :
    jsStrictEq v (.bool true) = true ↔ v = .bool true := by
  cases v <;> simp [jsStrictEq]

theorem jsStrictEq_strLit_iff (v : JsVal) (s : String) :
    jsStrictEq v (.str s) = true ↔ v = .str s := by
  cases v <;> simp [jsStrictEq]

/-- The text `true` parses to the boolean `true`, so the handler's
unparseable-fallback comparison with `"true"` can never fire. -/
theorem jsonParse_literal_true : jsonParse "true" = some (JsVal.bool true) := rfl

/-- The `valid` computation of `POST /verify-code` (`index.js` line 147)
holds exactly when the body decodes to the boolean `true` or the string
`"true"` (the `JSON.stringify(true)` disjunct coincides with the latter,
and the catch-branch fallback can never produce `true`). -/
theorem normalizedValid_iff (t : String) :
    (jsStrictEq (parseOrText t) (.bool true) || jsStrictEq (parseOrText t) (.str "true")
      || jsStrictEq (parseOrText t) (.str (jsonStringifyBool true))) = true
      ↔ (jsonParse t = some (JsVal.bool true) ∨ jsonParse t = some (JsVal.str "true")) := by
  cases hp : jsonParse t with
  | some v =>
    simp only [parseOrText, hp, jsonStringifyBool, cond_true, Bool.or_eq_true,
      jsStrictEq_boolTrue_iff, jsStrictEq_strLit_iff, Option.some_inj]
    tauto
  | none =>
    have hne : t ≠ "true" := by
      intro h'
      rw [h', jsonParse_literal_true] at hp
      cases hp
    simp [parseOrText, hp, jsStrictEq, jsonStringifyBool, hne]

/-! ## Fixtures for witnesses -/

/-- A well-formed request body used by concrete witnesses. -/
def bodyA : JsVal := .obj
  [("email", .str "a@b.com"), ("code", .str "123456"), ("new_password", .str "hunter2")]

/-- A fully configured environment used by concrete witnesses. -/
def envA : Env :=
  ⟨some "https://sb.example", some "srk", some "mail@example.com", some "pass"⟩

/-! ## Claims -/

/-- C3 counterexample: `JSON.parse` skips whitespace, so the 2xx body
`" true"` — which is neither the text `true` nor the text `"true"` —
also normalizes to `valid = true`. -/
theorem verifyCode_whitespace_body_true :
    verifyCode envA (some bodyA) 200 " true"
      = (.ok true, [Ev.verifyRpc "a@b.com" "123456"])
    ∧ (" true" : String) ≠ "true"
    ∧ (" true" : String) ≠ "\"true\"" :=
  ⟨rfl, by decide, by decide⟩

/-- C3 amended: for every `POST /verify-code` request with non-empty
email and code where the verification RPC answers 2xx, the handler
responds HTTP 200 with `{success, valid}` where `valid` is true exactly
when the body JSON-decodes to the boolean `true` or to the string
`"true"` (so the texts `true` and `"true"`, and also their variants with
JSON whitespace or escape sequences), and false for every other body —
in particular an upstream `false` yields HTTP 200 with `valid = false`,
not an error status. -/
theorem verifyCode_normalization (env : Env) (bodyOpt : Option JsVal)
    (email code su key : String) (rpcStatus : Nat) (rpcText : String)
    (hE : field2 bodyOpt "email" "user_email" = some email) (hE2 : email ≠ "")
    (hC : field2 bodyOpt "code" "user_code" = some code) (hC2 : code ≠ "")
    (hSu : safeEnv env.supabaseUrl = some su) (hSu2 : su ≠ "")
    (hK : safeEnv env.serviceRoleKey = some key) (hK2 : key ≠ "")
    (hok : httpOk rpcStatus = true) :
    (verifyCode env bodyOpt rpcStatus rpcText).2 = [Ev.verifyRpc email code]
    ∧ VCResp.status (verifyCode env bodyOpt rpcStatus rpcText).1 = 200
    ∧ ((verifyCode env bodyOpt rpcStatus rpcText).1 = .ok true ↔
        (jsonParse rpcText = some (JsVal.bool true)
          ∨ jsonParse rpcText = some (JsVal.str "true")))
    ∧ ((verifyCode env bodyOpt rpcStatus rpcText).1 = .ok false ↔
        ¬(jsonParse rpcText = some (JsVal.bool true)
          ∨ jsonParse rpcText = some (JsVal.str "true"))) := by
  have hred : verifyCode env bodyOpt rpcStatus rpcText
      = (.ok (jsStrictEq (parseOrText rpcText) (.bool true)
          || jsStrictEq (parseOrText rpcText) (.str "true")
          || jsStrictEq (parseOrText rpcText) (.str (jsonStringifyBool true))),
        [Ev.verifyRpc email code]) := by
    unfold verifyCode
    rw [hE, hC, hSu, hK]
    simp [strOptFalsy, hE2, hC2, hSu2, hK2, hok]
  have hval := normalizedValid_iff rpcText
  cases hB : (jsStrictEq (parseOrText rpcText) (JsVal.bool true)
      || jsStrictEq (parseOrText rpcText) (JsVal.str "true")
      || jsStrictEq (parseOrText rpcText) (JsVal.str (jsonStringifyBool true))) with
  | false =>
    rw [hB] at hred
    rw [hB] at hval
    simp only [Bool.false_eq_true, false_iff] at hval
    refine ⟨by rw [hred], by rw [hred]; rfl, ?_, ?_⟩
    · rw [hred]
      simp [hval]
    · rw [hred]
      simp [hval]
  | true =>
    rw [hB] at hred
    rw [hB] at hval
    simp only [true_iff] at hval
    refine ⟨by rw [hred], by rw [hred]; rfl, ?_, ?_⟩
    · rw [hred]
      simp [hval]
    · rw [hred]
      simp [hval]

/-- Witness for the amended C3 at the body `"\u0074rue"` (an escape
variant of the JSON string `"true"`): HTTP 200 with `valid = true`. -/
theorem verifyCode_normalization_witness :
    (verifyCode envA (some bodyA) 200 "\"\\u0074rue\"").2 = [Ev.verifyRpc "a@b.com" "123456"]
    ∧ VCResp.status (verifyCode envA (some bodyA) 200 "\"\\u0074rue\"").1 = 200
    ∧ (verifyCode envA (some bodyA) 200 "\"\\u0074rue\"").1 = .ok true := by
  have h := verifyCode_normalization envA (some bodyA) "a@b.com" "123456"
    "https://sb.example" "srk" 200 "\"\\u0074rue\""
    rfl (by decide) rfl (by decide) rfl (by decide) rfl (by decide) rfl
  exact ⟨h.1, h.2.1, h.2.2.1.mpr (Or.inr rfl)⟩

/-- C9: for every value `r` of the random source with `0 ≤ r < 1`, the
generated code `⌊100000 + r * 900000⌋` is an integer in `100000`–`999999`
inclusive, so its decimal expansion has exactly six digits and the
leading digit is in `1`–`9`. -/
theorem genCode_six_digits (r : ℚ) (h0 : 0 ≤ r) (h1 : r < 1) :
    100000 ≤ genCode r ∧ genCode r ≤ 999999
    ∧ (Nat.digits 10 (genCode r).toNat).length = 6
    ∧ ∀ d, (Nat.digits 10 (genCode r).toNat).getLast? = some d → 1 ≤ d ∧ d ≤ 9 := by
  have hlo : (100000 : ℤ) ≤ genCode r := by
    unfold genCode
    rw [Int.le_floor]
    push_cast
    nlinarith [mul_nonneg h0 (by norm_num : (0 : ℚ) ≤ 900000)]
  have hhi : genCode r < 1000000 := by
    unfold genCode
    rw [Int.floor_lt]
    push_cast
    nlinarith [mul_lt_mul_of_pos_right h1 (by norm_num : (0 : ℚ) < 900000)]
  have hn1 : 100000 ≤ (genCode r).toNat := by omega
  have hn2 : (genCode r).toNat ≤ 999999 := by omega
  have hne : (genCode r).toNat ≠ 0 := by omega
  have hlog : Nat.log 10 (genCode r).toNat = 5 := by
    apply Nat.log_eq_of_pow_le_of_lt_pow
    · norm_num
      omega
    · norm_num
      omega
  have hlen : (Nat.digits 10 (genCode r).toNat).length = 6 := by
    rw [Nat.digits_len 10 _ (by norm_num) hne, hlog]
  refine ⟨hlo, by omega, hlen, ?_⟩
  intro d hd
  have hnil : Nat.digits 10 (genCode r).toNat ≠ [] :=
    Nat.digits_ne_nil_iff_ne_zero.mpr hne
  have hlast := Nat.getLast_digit_ne_zero 10 hne
  rw [List.getLast?_eq_getLast _ hnil] at hd
  injection hd with hd
  have hmem : d ∈ Nat.digits 10 (genCode r).toNat := by
    rw [← hd]
    exact List.getLast_mem hnil
  have hlt : d < 10 := Nat.digits_lt_base (by norm_num) hmem
  have : d ≠ 0 := by
    rw [← hd]
    exact hlast
  omega

/-- Witness for C9 at `r = 1/2` (code `550000`). -/
theorem genCode_six_digits_witness :
    (0 ≤ (1 / 2 : ℚ) ∧ (1 / 2 : ℚ) < 1)
    ∧ (100000 ≤ genCode (1 / 2) ∧ genCode (1 / 2) ≤ 999999
      ∧ (Nat.digits 10 (genCode (1 / 2)).toNat).length = 6
      ∧ ∀ d, (Nat.digits 10 (genCode (1 / 2)).toNat).getLast? = some d → 1 ≤ d ∧ d ≤ 9) :=
  ⟨⟨by norm_num, by norm_num⟩, genCode_six_digits (1 / 2) (by norm_num) (by norm_num)⟩

/-- C2: for every `POST /send-code` request with a non-empty email and a
configured store: a non-2xx store insert yields 500 with the upstream
body as detail and no mail-transport operation in the trace; the
response is the success response iff the insert got a 2xx and the mail
dispatch was issued and succeeded; when the insert succeeded but the
dispatch fails the handler yields 500 while the trace still holds the
single store insert and no other store operation (no rollback). -/
theorem sendCode_store_then_mail (env : Env) (bodyOpt : Option JsVal) (r : ℚ)
    (email : String) (insertStatus : Nat) (insertBody : String)
    (mailVerifyErr sendErr : Option String)
    (hE : field2 bodyOpt "email" "user_email" = some email) (hE2 : email ≠ "")
    (hSu : strOptFalsy (safeEnv env.supabaseUrl) = false)
    (hK : strOptFalsy (safeEnv env.serviceRoleKey) = false) :
    (httpOk insertStatus = false →
      sendCode env bodyOpt r insertStatus insertBody mailVerifyErr sendErr
        = (.storeFailed insertBody, [Ev.storeInsert email (toString (genCode r))])
      ∧ SCResp.status (sendCode env bodyOpt r insertStatus insertBody mailVerifyErr sendErr).1 = 500)
    ∧ ((sendCode env bodyOpt r insertStatus insertBody mailVerifyErr sendErr).1 = .ok ↔
        httpOk insertStatus = true
        ∧ Ev.mailSend email (toString (genCode r))
            ∈ (sendCode env bodyOpt r insertStatus insertBody mailVerifyErr sendErr).2
        ∧ sendErr = none)
    ∧ List.filter isStoreEv (sendCode env bodyOpt r insertStatus insertBody mailVerifyErr sendErr).2
        = [Ev.storeInsert email (toString (genCode r))]
    ∧ (∀ m, httpOk insertStatus = true →
        strOptFalsy (safeEnv env.emailUser) = false →
        strOptFalsy (safeEnv env.emailPass) = false →
        mailVerifyErr = none → sendErr = some m →
        sendCode env bodyOpt r insertStatus insertBody mailVerifyErr sendErr
          = (.sendFailed m, [Ev.storeInsert email (toString (genCode r)), Ev.mailVerify,
              Ev.mailSend email (toString (genCode r))])) := by
  have hfals : strOptFalsy (some email) = false := by simp [strOptFalsy, hE2]
  unfold sendCode
  rw [hE]
  cases hIns : httpOk insertStatus <;>
    cases hEU : strOptFalsy (safeEnv env.emailUser) <;>
      cases hEP : strOptFalsy (safeEnv env.emailPass) <;>
        cases mailVerifyErr <;> cases sendErr <;>
          simp_all [isStoreEv, SCResp.status]

/-- Witness for C2: the store insert fails with status 500, so the
handler reports the failure with the upstream detail and the mail
transport is never touched. -/
theorem sendCode_store_then_mail_witness :
    sendCode envA (some bodyA) 0 500 "boom" none none
      = (.storeFailed "boom", [Ev.storeInsert "a@b.com" (toString (genCode 0))]) :=
  ((sendCode_store_then_mail envA (some bodyA) 0 "a@b.com" 500 "boom" none none
    rfl (by decide) rfl rfl).1 rfl).1

/-- C1: `resetPassword` is a pure function of the request fields and the
upstream responses received during this request (the embedding carries
no cross-request state, mirroring the module, which keeps no mutable
state between requests); whenever this request's own verification RPC
answers non-2xx or a body other than true, the handler answers 400
"Invalid or expired code" after the verify call and issues nothing else
— even when a separate verify-code request for the same pair (quantified
here as an arbitrary prior handler run returning `valid = true`)
succeeded. -/
theorem resetPassword_reverifies (env venv : Env) (bodyOpt vbody : Option JsVal)
    (email pw code : String)
    (verifyStatus : Nat) (verifyText : String) (uSt : Nat) (uTx : String)
    (dSt : Nat) (dTx : String) (pSt : Nat) (pTx : String)
    (hE : field2 bodyOpt "email" "user_email" = some email) (hE2 : email ≠ "")
    (hP : field2 bodyOpt "new_password" "password" = some pw) (hP2 : pw ≠ "")
    (hC : field2 bodyOpt "code" "user_code" = some code) (hC2 : code ≠ "")
    (hSu : strOptFalsy (safeEnv env.supabaseUrl) = false)
    (hK : strOptFalsy (safeEnv env.serviceRoleKey) = false)
    (hfail : httpOk verifyStatus = false ∨ rpVerified verifyText = false)
    (hprior : (verifyCode venv vbody pSt pTx).1 = .ok true) :
    resetPassword env bodyOpt verifyStatus verifyText uSt uTx dSt dTx
      = (.invalidCode verifyText, [Ev.verifyRpc email code])
    ∧ RPResp.status (resetPassword env bodyOpt verifyStatus verifyText uSt uTx dSt dTx).1
        = 400 := by
  have hfals : ∀ s : String, s ≠ "" → strOptFalsy (some s) = false := by
    intro s hs
    simp [strOptFalsy, hs]
  have hmain : resetPassword env bodyOpt verifyStatus verifyText uSt uTx dSt dTx
      = (.invalidCode verifyText, [Ev.verifyRpc email code]) := by
    unfold resetPassword
    rw [hE, hP, hC]
    rcases hfail with hf | hf <;>
      simp [hSu, hK, hf, hfals email hE2, hfals pw hP2, hfals code hC2]
  refine ⟨hmain, ?_⟩
  rw [hmain]
  rfl

/-- Witness for C1: a prior verify-code run for the same pair answered
`valid = true`, yet the reset request whose own verification RPC answers
`false` is rejected with 400. -/
theorem resetPassword_reverifies_witness :
    ((verifyCode envA (some bodyA) 200 "true").1 = .ok true)
    ∧ (resetPassword envA (some bodyA) 200 "false" 200 "[]" 200 "{}"
        = (.invalidCode "false", [Ev.verifyRpc "a@b.com" "123456"]))
    ∧ RPResp.status (resetPassword envA (some bodyA) 200 "false" 200 "[]" 200 "{}").1 = 400 := by
  have h := resetPassword_reverifies envA envA (some bodyA) (some bodyA)
    "a@b.com" "hunter2" "123456" 200 "false" 200 "[]" 200 "{}" 200 "true"
    rfl (by decide) rfl (by decide) rfl (by decide) rfl rfl (Or.inr rfl) rfl
  exact ⟨rfl, h.1, h.2⟩

/-- C4: when the reset-password verification succeeds but the admin
lookup body normalizes to an empty user list, the handler answers 404
and never issues the password-update PUT. -/
theorem resetPassword_empty_users_404 (env : Env) (bodyOpt : Option JsVal)
    (email pw code : String) (vSt : Nat) (vTx : String) (uSt : Nat) (uTx : String)
    (dSt : Nat) (dTx : String) (parsed : JsVal)
    (hE : field2 bodyOpt "email" "user_email" = some email) (hE2 : email ≠ "")
    (hP : field2 bodyOpt "new_password" "password" = some pw) (hP2 : pw ≠ "")
    (hC : field2 bodyOpt "code" "user_code" = some code) (hC2 : code ≠ "")
    (hSu : strOptFalsy (safeEnv env.supabaseUrl) = false)
    (hK : strOptFalsy (safeEnv env.serviceRoleKey) = false)
    (hvok : httpOk vSt = true) (hver : rpVerified vTx = true)
    (hparse : jsonParse uTx = some parsed)
    (hempty : usersArray parsed = .arr []) :
    resetPassword env bodyOpt vSt vTx uSt uTx dSt dTx
      = (.notFound email, [Ev.verifyRpc email code, Ev.adminLookup email])
    ∧ RPResp.status (resetPassword env bodyOpt vSt vTx uSt uTx dSt dTx).1 = 404
    ∧ ∀ uid p, Ev.adminUpdate uid p ∉ (resetPassword env bodyOpt vSt vTx uSt uTx dSt dTx).2 := by
  have hfalsE : strOptFalsy (some email) = false := by simp [strOptFalsy, hE2]
  have hfalsP : strOptFalsy (some pw) = false := by simp [strOptFalsy, hP2]
  have hfalsC : strOptFalsy (some code) = false := by simp [strOptFalsy, hC2]
  have hmain : resetPassword env bodyOpt vSt vTx uSt uTx dSt dTx
      = (.notFound email, [Ev.verifyRpc email code, Ev.adminLookup email]) := by
    unfold resetPassword
    rw [hE, hP, hC]
    cases parsed <;>
      simp_all [usersArray, memberT, jsOr, jsTruthy, jsLength, jsStrictEq]
  refine ⟨hmain, ?_, ?_⟩
  · rw [hmain]
    rfl
  · intro uid p
    rw [hmain]
    simp

/-- Witness for C4: the lookup answers the bare empty array `[]`. -/
theorem resetPassword_empty_users_404_witness :
    resetPassword envA (some bodyA) 200 "true" 200 "[]" 200 "{}"
      = (.notFound "a@b.com", [Ev.verifyRpc "a@b.com" "123456", Ev.adminLookup "a@b.com"])
    ∧ RPResp.status (resetPassword envA (some bodyA) 200 "true" 200 "[]" 200 "{}").1 = 404
    ∧ ∀ uid p,
        Ev.adminUpdate uid p ∉ (resetPassword envA (some bodyA) 200 "true" 200 "[]" 200 "{}").2 :=
  resetPassword_empty_users_404 envA (some bodyA) "a@b.com" "hunter2" "123456"
    200 "true" 200 "[]" 200 "{}" (.arr [])
    rfl (by decide) rfl (by decide) rfl (by decide) rfl rfl rfl rfl rfl rfl

/-- C7: the lookup normalization accepts a bare array unchanged, or the
array wrapped in an object under `users` (preferred) or `data`, and the
handler resolves the account deterministically to the first element of
the normalized list, issuing the update with that element's `id`. -/
theorem usersArray_normalization (xs : List JsVal) (fs : List (String × JsVal)) :
    usersArray (.arr xs) = .arr xs
    ∧ (getField fs "users" = .arr xs → usersArray (.obj fs) = .arr xs)
    ∧ (getField fs "users" = .undefined → getField fs "data" = .arr xs →
        usersArray (.obj fs) = .arr xs)
    ∧ ∀ (env : Env) (bodyOpt : Option JsVal) (email pw code : String)
        (vSt : Nat) (vTx : String) (uSt : Nat) (uTx : String) (dSt : Nat) (dTx : String)
        (u : JsVal) (us : List JsVal),
        field2 bodyOpt "email" "user_email" = some email → email ≠ "" →
        field2 bodyOpt "new_password" "password" = some pw → pw ≠ "" →
        field2 bodyOpt "code" "user_code" = some code → code ≠ "" →
        strOptFalsy (safeEnv env.supabaseUrl) = false →
        strOptFalsy (safeEnv env.serviceRoleKey) = false →
        httpOk vSt = true → rpVerified vTx = true →
        jsonParse uTx = some (.arr (u :: us)) →
        u ≠ JsVal.null → u ≠ JsVal.undefined →
        (resetPassword env bodyOpt vSt vTx uSt uTx dSt dTx).2
          = [Ev.verifyRpc email code, Ev.adminLookup email,
             Ev.adminUpdate (jsToString (memberT u "id")) pw] := by
  refine ⟨rfl, ?_, ?_, ?_⟩
  · intro h
    simp [usersArray, jsOr, memberT, h, jsTruthy]
  · intro h1 h2
    simp [usersArray, jsOr, memberT, h1, h2, jsTruthy]
  · intro env bodyOpt email pw code vSt vTx uSt uTx dSt dTx u us
      hE hE2 hP hP2 hC hC2 hSu hK hvok hver hparse hu1 hu2
    have hfalsE : strOptFalsy (some email) = false := by simp [strOptFalsy, hE2]
    have hfalsP : strOptFalsy (some pw) = false := by simp [strOptFalsy, hP2]
    have hfalsC : strOptFalsy (some code) = false := by simp [strOptFalsy, hC2]
    unfold resetPassword
    rw [hE, hP, hC]
    cases u <;>
      simp_all [usersArray, jsTruthy, jsLength, jsStrictEq, jsIndex0]
    all_goals
      rw [if_neg (by omega)]
      split_ifs <;> rfl

/-- Witness for C7: the lookup answers `[{"id":"u1"}]` and the update is
issued for id `u1` (the first and only element). -/
theorem usersArray_normalization_witness :
    usersArray (.arr [JsVal.obj [("id", JsVal.str "u1")]])
      = .arr [JsVal.obj [("id", JsVal.str "u1")]]
    ∧ (resetPassword envA (some bodyA) 200 "true" 200 "[\x7b\"id\":\"u1\"\x7d]" 200 "{}").2
        = [Ev.verifyRpc "a@b.com" "123456", Ev.adminLookup "a@b.com",
           Ev.adminUpdate "u1" "hunter2"] := by
  have h := usersArray_normalization [JsVal.obj [("id", JsVal.str "u1")]] []
  refine ⟨h.1, ?_⟩
  exact h.2.2.2 envA (some bodyA) "a@b.com" "hunter2" "123456"
    200 "true" 200 "[\x7b\"id\":\"u1\"\x7d]" 200 "{}" (JsVal.obj [("id", JsVal.str "u1")]) []
    rfl (by decide) rfl (by decide) rfl (by decide) rfl rfl rfl rfl rfl
    (fun hh => JsVal.noConfusion hh) (fun hh => JsVal.noConfusion hh)

/-- C5 counterexample: `index.js` applies no trimming, so a whitespace-only
email (`" "`) passes validation in `POST /send-code` — the handler does
not answer 400 and the store insert is issued with the whitespace email. -/
theorem sendCode_whitespace_passes :
    (sendCode envA (some (.obj [("email", .str " ")])) 0 500 "x" none none).1
      = .storeFailed "x"
    ∧ (sendCode envA (some (.obj [("email", .str " ")])) 0 500 "x" none none).2
      = [Ev.storeInsert " " (toString (genCode 0))] :=
  ⟨rfl, rfl⟩

/-- C5 amended: in every endpoint of `index.js`, a required field that is
missing or empty (the empty string) yields 400 before any outbound call,
with no external side effect; fields consisting only of whitespace are
not rejected (no trimming is applied — see the counterexample). -/
theorem validation_rejects_missing_or_empty (env : Env) (bodyOpt : Option JsVal) (r : ℚ)
    (insSt : Nat) (insB : String) (mvErr sErr : Option String)
    (vSt : Nat) (vTx : String) (uSt : Nat) (uTx : String) (dSt : Nat) (dTx : String) :
    (strOptFalsy (field2 bodyOpt "email" "user_email") = true →
      sendCode env bodyOpt r insSt insB mvErr sErr = (.badRequest, []))
    ∧ (strOptFalsy (field2 bodyOpt "email" "user_email") = true
        ∨ strOptFalsy (field2 bodyOpt "code" "user_code") = true →
      verifyCode env bodyOpt vSt vTx = (.badRequest, []))
    ∧ (strOptFalsy (field2 bodyOpt "email" "user_email") = true
        ∨ strOptFalsy (field2 bodyOpt "new_password" "password") = true
        ∨ strOptFalsy (field2 bodyOpt "code" "user_code") = true →
      resetPassword env bodyOpt vSt vTx uSt uTx dSt dTx = (.badRequest, [])) := by
  refine ⟨?_, ?_, ?_⟩
  · intro h
    unfold sendCode
    simp [h]
  · intro h
    unfold verifyCode
    rcases h with h | h <;> simp [h]
  · intro h
    unfold resetPassword
    rcases h with h | h | h <;> simp [h]

/-- Witness for the amended C5: requests with no body are rejected with
400 by all three endpoints and no outbound call is made. -/
theorem validation_rejects_missing_or_empty_witness :
    sendCode envA none 0 200 "x" none none = (.badRequest, [])
    ∧ verifyCode envA none 200 "true" = (.badRequest, [])
    ∧ resetPassword envA none 200 "true" 200 "[]" 200 "{}" = (.badRequest, []) := by
  have h := validation_rejects_missing_or_empty envA none 0 200 "x" none none
    200 "true" 200 "[]" 200 "{}"
  exact ⟨h.1 rfl, h.2.1 (Or.inl rfl), h.2.2 (Or.inl rfl)⟩

/-- C6 evidence: `index.js` performs no `ok` check on the admin-users
lookup response, so a 403 lookup answer with JSON body `{}` is processed
as a successful lookup and misreported as 404 "user not found" instead of
a 500 upstream error with the raw text attached. -/
theorem resetPassword_lookup_error_as_404 :
    resetPassword envA (some bodyA) 200 "true" 403 "{}" 200 "{}"
      = (.notFound "a@b.com", [Ev.verifyRpc "a@b.com" "123456", Ev.adminLookup "a@b.com"])
    ∧ RPResp.status (resetPassword envA (some bodyA) 200 "true" 403 "{}" 200 "{}").1 = 404 :=
  ⟨rfl, rfl⟩

/-- C8: once authorization and validation succeed and the profile fetch
is 2xx, the Cloudinary destroy appears in the trace exactly when the
fetched profile's prior `avatar_public_id` is truthy (a non-empty string)
and differs strictly from the new one; whatever the destroy outcome (the
`dErr` parameter, caught and ignored), the profile PATCH with the new
fields is issued and a 2xx PATCH yields the success response. -/
theorem avatarUpdate_destroy_guard (env : Env)
    (a x auth : Option String) (bodyOpt : Option JsVal)
    (key userId : String) (pSt : Nat) (pTx : String) (dErr : Option String)
    (uSt : Nat) (uTx : String)
    (hKey : safeEnv env.serviceRoleKey = some key) (hKey2 : key ≠ "")
    (hHdr : strOr (a.getD "") (strOr (x.getD "") (auth.getD "")) = key)
    (hNB : key.data.take 7 ≠ "Bearer ".data)
    (hU : avatarUserId bodyOpt = some userId) (hU2 : userId ≠ "")
    (hPid : jsTruthy (avatarNewPublicId bodyOpt) = true)
    (hUrl : jsTruthy (avatarNewUrl bodyOpt) = true)
    (hSuv : ∃ su, safeEnv env.supabaseUrl = some su)
    (hPOk : httpOk pSt = true) :
    ((∃ s, Ev.cloudDestroy s ∈ (avatarUpdate env a x auth bodyOpt pSt pTx dErr uSt uTx).2) ↔
      jsTruthy (avatarOldPublicId pTx) = true
      ∧ jsStrictEq (avatarOldPublicId pTx) (avatarNewPublicId bodyOpt) = false)
    ∧ Ev.profilePatch userId (jsToString (avatarNewUrl bodyOpt))
        (jsToString (avatarNewPublicId bodyOpt))
        ∈ (avatarUpdate env a x auth bodyOpt pSt pTx dErr uSt uTx).2
    ∧ (httpOk uSt = true →
        (avatarUpdate env a x auth bodyOpt pSt pTx dErr uSt uTx).1 = .ok uTx) := by
  obtain ⟨su, hSu⟩ := hSuv
  have hfals : strOptFalsy (some key) = false := by simp [strOptFalsy, hKey2]
  have hfalsU : strOptFalsy (some userId) = false := by simp [strOptFalsy, hU2]
  unfold avatarUpdate
  rw [hKey, hHdr, hU, hSu]
  cases hc : (jsTruthy (avatarOldPublicId pTx)
      && !jsStrictEq (avatarOldPublicId pTx) (avatarNewPublicId bodyOpt)) <;>
    cases hupd : httpOk uSt <;>
      simp_all [Bool.and_eq_true, Bool.not_eq_true']
  all_goals
    by_cases hAB : jsTruthy (avatarOldPublicId pTx) = true
        ∧ jsStrictEq (avatarOldPublicId pTx) (avatarNewPublicId bodyOpt) = false <;>
      simp [hAB]

/-- A request body for the avatar witness: new id equal to the stored
one. -/
def bodyB : JsVal := .obj
  [("user_id", .str "u1"), ("new_public_id", .str "p1"),
   ("new_url", .str "https://img.example/p1")]

/-- Witness for C8: the stored `avatar_public_id` equals the new one, so
no destroy call appears and the PATCH still happens and succeeds. -/
theorem avatarUpdate_destroy_guard_witness :
    ((∃ s, Ev.cloudDestroy s ∈ (avatarUpdate envA (some "srk") none none (some bodyB)
        200 "[\x7b\"avatar_public_id\":\"p1\"\x7d]" none 200 "[]").2) ↔
      jsTruthy (avatarOldPublicId "[\x7b\"avatar_public_id\":\"p1\"\x7d]") = true
      ∧ jsStrictEq (avatarOldPublicId "[\x7b\"avatar_public_id\":\"p1\"\x7d]")
          (avatarNewPublicId (some bodyB)) = false)
    ∧ Ev.profilePatch "u1" (jsToString (avatarNewUrl (some bodyB)))
        (jsToString (avatarNewPublicId (some bodyB)))
        ∈ (avatarUpdate envA (some "srk") none none (some bodyB)
            200 "[\x7b\"avatar_public_id\":\"p1\"\x7d]" none 200 "[]").2
    ∧ (httpOk 200 = true →
        (avatarUpdate envA (some "srk") none none (some bodyB)
          200 "[\x7b\"avatar_public_id\":\"p1\"\x7d]" none 200 "[]").1 = .ok "[]") :=
  avatarUpdate_destroy_guard envA (some "srk") none none (some bodyB) "srk" "u1"
    200 "[\x7b\"avatar_public_id\":\"p1\"\x7d]" none 200 "[]"
    rfl (by decide) rfl (by decide) rfl (by decide) rfl rfl
    ⟨jsTrim "https://sb.example", rfl⟩ rfl

/-- C10: the Cloudinary destroy of `POST /delete-image` appears in the
trace exactly when `DELETE_TOKEN` is configured non-empty, the caller's
token (header or body) strictly equals it, and a truthy `public_id` is
supplied; otherwise the handler answers 500 (token unconfigured), 403
(missing or mismatched token) or 400 (missing `public_id`) with an empty
trace — in particular with no `DELETE_TOKEN` every request gets 500 and
nothing is ever destroyed. -/
theorem deleteImage_guard (envTok hTok : Option String) (bodyOpt : Option JsVal)
    (qPid : Option String) (dErr : Option String) :
    ((∃ s, Ev.cloudDestroy s ∈ (deleteImage envTok hTok bodyOpt qPid dErr).2) ↔
      envTok.getD "" ≠ ""
      ∧ jsStrictEq (diToken hTok bodyOpt) (.str (envTok.getD "")) = true
      ∧ jsTruthy (diPublicId bodyOpt qPid) = true)
    ∧ (envTok.getD "" = "" → deleteImage envTok hTok bodyOpt qPid dErr = (.notConfigured, []))
    ∧ (envTok.getD "" ≠ "" →
        jsStrictEq (diToken hTok bodyOpt) (.str (envTok.getD "")) = false →
        deleteImage envTok hTok bodyOpt qPid dErr = (.forbidden, []))
    ∧ (envTok.getD "" ≠ "" →
        jsStrictEq (diToken hTok bodyOpt) (.str (envTok.getD "")) = true →
        jsTruthy (diPublicId bodyOpt qPid) = false →
        deleteImage envTok hTok bodyOpt qPid dErr = (.badRequest, [])) := by
  have htok : ∀ h : jsStrictEq (diToken hTok bodyOpt) (.str (envTok.getD "")) = true,
      jsTruthy (diToken hTok bodyOpt) = jsTruthy (.str (envTok.getD "")) := by
    intro h
    rw [(jsStrictEq_strLit_iff _ _).mp h]
  unfold deleteImage
  by_cases hcfg : envTok.getD "" = ""
  · simp [hcfg]
  · cases heq : jsStrictEq (diToken hTok bodyOpt) (.str (envTok.getD "")) <;>
      cases hpid : jsTruthy (diPublicId bodyOpt qPid) <;>
        cases dErr <;>
          simp_all [jsTruthy]

/-- Witness for C10: with `DELETE_TOKEN` unset the endpoint answers 500
and nothing is destroyed, whatever the caller sends. -/
theorem deleteImage_guard_witness :
    deleteImage none (some "t") (some (.obj [("public_id", .str "avatars/x")])) none none
      = (.notConfigured, []) :=
  (deleteImage_guard none (some "t")
    (some (.obj [("public_id", .str "avatars/x")])) none none).2.1 rfl

end ResetServer
